import Mathlib

/-!
Verification of the restic-exporter stats pipeline.

This file shallowly embeds the JSON decoders of
`src/restic_exporter/types.py` and the executor / stats-generator logic of
`src/restic_exporter/restic_exporter.py` (the two sources the frozen claims
cite), and proves or refutes the claims about them.

Modelling conventions:
* JSON-decoded Python values are the inductive `JVal`; Python floats are
  `PyFloat` decimals (mantissa over a power of ten, the exact value of a
  JSON decimal literal) — the claims only compare, validate and truncate
  them, and no float arithmetic or rounding is involved.
* Python exceptions are explicit: fallible operations return
  `Except PyExn α`.  A decoder "returning absence" is `.ok none`; an
  exception escaping to the caller is `.error e`.
* Log calls are returned as explicit `LogEvent` lists.
* The caller-supplied mutable `ResticSnapshotKeys` object of streaming
  mode is held in an explicit store (`KeyStore`) and passed by reference
  (`KeyRef`), because claim C10 is about object identity and claim C4
  about in-place mutation.
* `json.loads` of a piped line is abstracted as an `Option JVal`: `none`
  stands for a line that is not valid JSON.
* `dateutil.parser.parse` is an external library; it is modelled as
  accepting exactly the strings with an ISO-8601 `YYYY-MM-DD` date prefix
  (every timestamp appearing in a claim is of this shape, and no claim
  depends on the precise set of parseable strings), raising `TypeError`
  on non-strings as the real parser does.
-/

/-- A Python float, as decoded from a JSON decimal literal: the value
`mant / 10 ^ exp10`.  The pipeline only validates, compares with 0 and 1,
and truncates floats, so this exact decimal representation is faithful. -/
structure PyFloat where
  mant : Int
  exp10 : Nat
deriving DecidableEq, Repr

/-- A JSON-decoded Python value. -/
inductive JVal : Type where
  | jnull : JVal
  | jbool : Bool → JVal
  | jint : Int → JVal
  | jfloat : PyFloat → JVal
  | jstr : String → JVal
  | jarr : List JVal → JVal
  | jobj : List (String × JVal) → JVal
deriving Repr

/-- A Python dictionary of JSON-decoded values (`Dict[str, Any]`). -/
abbrev JObj := List (String × JVal)

/-- The Python exceptions the embedded code can raise or catch. -/
inductive PyExn : Type where
  | keyError (key : String)
  | valueError (msg : String)
  | typeError (msg : String)
  | parserError (msg : String)
deriving DecidableEq, Repr

/-- Log lines the embedded code emits (warnings/errors of the module
loggers, tagged by call site). -/
inductive LogEvent : Type where
  | warnStatsMissingKey (key : String)
  | warnStatsInvalidValue (msg : String)
  | warnSnapshotMissingKey (key : String)
  | warnUnparseableTime
  | warnStatusMissingKey (key : String)
  | warnStatusInvalidValue (msg : String)
  | warnSummaryMissingKey (key : String)
  | warnSummaryInvalidValue (msg : String)
  | warnNoSnapshots
deriving DecidableEq, Repr

/-- Python truthiness of a JSON value (`if not x`). -/
def pyTruthy : JVal → Bool
  | .jnull => false
  | .jbool b => b
  | .jint n => n != 0
  | .jfloat q => q.mant != 0
  | .jstr s => s != ""
  | .jarr xs => !xs.isEmpty
  | .jobj fields => !fields.isEmpty

/-- First-match lookup in a JSON object (JSON objects produced by
`json.loads` have unique keys). -/
def JObj.find? : JObj → String → Option JVal
  | [], _ => none
  | (k, v) :: rest, key => if k = key then some v else JObj.find? rest key

/-- Python subscript `x[key]` with a string key: dictionary lookup raising
`KeyError` on a missing key; every non-dict JSON value raises `TypeError`
(lists and strings reject string indices, scalars are not subscriptable). -/
def pySubscript (v : JVal) (key : String) : Except PyExn JVal :=
  match v with
  | .jobj fields =>
    match JObj.find? fields key with
    | some x => .ok x
    | none => .error (.keyError key)
  | _ => .error (.typeError "value is not subscriptable with a string")

/-- Python `x.get(key)`: `None` default on a dict; any other value has no
`get` attribute and raises (modelled as `TypeError`, standing for the
`AttributeError` the claims never distinguish). -/
def pyGet (v : JVal) (key : String) : Except PyExn JVal :=
  match v with
  | .jobj fields =>
    match JObj.find? fields key with
    | some x => .ok x
    | none => .ok .jnull
  | _ => .error (.typeError "value has no attribute get")

/-- Python `key in x` for a string key: key test on dicts, element
equality on lists, substring test on strings, `TypeError` otherwise. -/
def pyContains (v : JVal) (key : String) : Except PyExn Bool :=
  match v with
  | .jobj fields => .ok (fields.any fun p => p.1 = key)
  | .jarr xs =>
    .ok (xs.any fun x => match x with | .jstr s => s = key | _ => false)
  | .jstr s => .ok (decide ((s.splitOn key).length ≥ 2))
  | _ => .error (.typeError "argument is not iterable")

/-- Truncation toward zero, the behaviour of Python `int()` on a float. -/
def pyTrunc (q : PyFloat) : Int :=
  if 0 ≤ q.mant then (q.mant.toNat / 10 ^ q.exp10 : Nat)
  else -((-q.mant).toNat / 10 ^ q.exp10 : Nat)

/-- Parse a Python `int()` string argument: optional surrounding spaces,
optional sign, then decimal digits. -/
def pyIntOfStr (s : String) : Option Int :=
  let t := ((s.toList.dropWhile fun c => c.isWhitespace).reverse.dropWhile
    fun c => c.isWhitespace).reverse
  let core : List Char → Option Int := fun cs =>
    if cs ≠ [] ∧ cs.all Char.isDigit then
      some (cs.foldl (fun acc c => acc * 10 + (c.toNat - '0'.toNat : Int)) 0)
    else none
  match t with
  | '-' :: rest => (core rest).map (fun n => -n)
  | '+' :: rest => core rest
  | cs => core cs

/-- Parse a Python `float()` string argument: optional sign, digits with an
optional fractional part. -/
def pyFloatOfStr (s : String) : Option PyFloat :=
  let t := ((s.toList.dropWhile fun c => c.isWhitespace).reverse.dropWhile
    fun c => c.isWhitespace).reverse
  let digits : List Char → Option Int := fun cs =>
    if cs ≠ [] ∧ cs.all Char.isDigit then
      some (cs.foldl (fun acc c => acc * 10 + (c.toNat - '0'.toNat : Int)) 0)
    else none
  let core : List Char → Option PyFloat := fun cs =>
    match cs.splitOn '.' with
    | [whole] => (digits whole).map fun w => ⟨w, 0⟩
    | [whole, frac] =>
      match digits whole, digits frac with
      | some w, some f => some ⟨w * 10 ^ frac.length + f, frac.length⟩
      | _, _ => none
    | _ => none
  match t with
  | '-' :: rest => (core rest).map fun x => ⟨-x.mant, x.exp10⟩
  | '+' :: rest => core rest
  | cs => core cs

/-- Python `int(x)` on a JSON-decoded value: ints and bools pass through,
floats truncate toward zero, strings parse (or raise `ValueError`), and
`None`/lists/dicts raise `TypeError`. -/
def pyToInt (v : JVal) : Except PyExn Int :=
  match v with
  | .jint n => .ok n
  | .jfloat q => .ok (pyTrunc q)
  | .jbool b => .ok (if b then 1 else 0)
  | .jstr s =>
    match pyIntOfStr s with
    | some n => .ok n
    | none => .error (.valueError ("invalid literal for int: " ++ s))
  | _ => .error (.typeError "int() argument has a wrong type")

/-- Python `float(x)` on a JSON-decoded value. -/
def pyToFloat (v : JVal) : Except PyExn PyFloat :=
  match v with
  | .jint n => .ok ⟨n, 0⟩
  | .jfloat q => .ok q
  | .jbool b => .ok (if b then ⟨1, 0⟩ else ⟨0, 0⟩)
  | .jstr s =>
    match pyFloatOfStr s with
    | some q => .ok q
    | none => .error (.valueError ("could not convert string to float: " ++ s))
  | _ => .error (.typeError "float() argument has a wrong type")

/-- Python `str(x)`; never fails.  The renderings of non-string scalars
only matter for being non-empty, which they all are. -/
def pyToStr (v : JVal) : String :=
  match v with
  | .jstr s => s
  | .jint n => toString n
  | .jfloat q => toString q.mant ++ "e-" ++ toString q.exp10
  | .jbool b => if b then "True" else "False"
  | .jnull => "None"
  | .jarr _ => "[...]"
  | .jobj _ => "\x7b...\x7d"

/-! ## Constants (src/restic_exporter/const.py) -/

def KEY_COMMAND_SNAPSHOTS : String := "snapshots"
def KEY_COMMAND_STATS : String := "stats"
def KEY_MESSAGE_TYPE : String := "message_type"
def KEY_MESSAGE_TYPE_STATUS : String := "status"
def KEY_MESSAGE_TYPE_SUMMARY : String := "summary"
def KEY_MODE_RAW_DATA : String := "raw-data"
def KEY_MODE_RESTORE_SIZE : String := "restore-size"
def KEY_SNAPSHOT_HOSTNAME : String := "hostname"
def KEY_SNAPSHOT_PATHS : String := "paths"
def KEY_SNAPSHOT_SHORT_ID : String := "short_id"
def KEY_SNAPSHOTS : String := "snapshots"
def KEY_SNAPSHOT_TAGS : String := "tags"
def KEY_SNAPSHOT_TIME : String := "time"
def KEY_STATS_TOTAL_BLOB_COUNT : String := "total_blob_count"
def KEY_STATS_TOTAL_FILE_COUNT : String := "total_file_count"
def KEY_STATS_TOTAL_SIZE : String := "total_size"
def KEY_STATUS_BYTES_DONE : String := "bytes_done"
def KEY_STATUS_BYTES_TOTAL : String := "total_bytes"
def KEY_STATUS_FILES_DONE : String := "files_done"
def KEY_STATUS_FILES_TOTAL : String := "total_files"
def KEY_STATUS_PERCENT_DONE : String := "percent_done"
def KEY_STATUS_SECONDS_ELAPSED : String := "seconds_elapsed"
def KEY_STATUS_SECONDS_REMAINING : String := "seconds_remaining"
def KEY_SUMMARY_DATA_ADDED : String := "data_added"
def KEY_SUMMARY_DIRS_CHANGED : String := "dirs_changed"
def KEY_SUMMARY_DIRS_NEW : String := "dirs_new"
def KEY_SUMMARY_DIRS_UNMODIFIED : String := "dirs_unmodified"
def KEY_SUMMARY_FILES_CHANGED : String := "files_changed"
def KEY_SUMMARY_FILES_NEW : String := "files_new"
def KEY_SUMMARY_FILES_UNMODIFIED : String := "files_unmodified"
def KEY_SUMMARY_SNAPSHOT_ID : String := "snapshot_id"
def KEY_SUMMARY_TOTAL_BYTES_PROCESSED : String := "total_bytes_processed"
def KEY_SUMMARY_TOTAL_DURATION : String := "total_duration"
def KEY_SUMMARY_TOTAL_FILES_PROCESSED : String := "total_files_processed"

/-! ## Converters and validators (src/restic_exporter/types.py) -/

/-- `convert_int_or_none`: `None` stays `None`, otherwise Python `int()`. -/
def convert_int_or_none (v : JVal) : Except PyExn (Option Int) :=
  match v with
  | .jnull => .ok none
  | _ => (pyToInt v).map some

/-- `convert_float_or_none`: `None` stays `None`, otherwise Python `float()`. -/
def convert_float_or_none (v : JVal) : Except PyExn (Option PyFloat) :=
  match v with
  | .jnull => .ok none
  | _ => (pyToFloat v).map some

/-- `convert_str_or_none`: `None` stays `None`, otherwise Python `str()`. -/
def convert_str_or_none (v : JVal) : JVal :=
  match v with
  | .jnull => .jnull
  | _ => .jstr (pyToStr v)

/-- `validate_positive` applied to a converted required int field. -/
def validate_positive_int (n : Int) : Except PyExn Unit :=
  if n < 0 then .error (.valueError "Expected positive number") else .ok ()

/-- `validate_positive` applied to a converted optional int field. -/
def validate_positive_opt_int (o : Option Int) : Except PyExn Unit :=
  match o with
  | none => .ok ()
  | some n => validate_positive_int n

/-- `validate_positive` applied to a converted required float field
(`val < 0` on the decimal value is `mant < 0`). -/
def validate_positive_rat (q : PyFloat) : Except PyExn Unit :=
  if q.mant < 0 then .error (.valueError "Expected positive number") else .ok ()

/-- `validate_percent` applied to a converted optional float field
(`val < 0 or val > 1` on the decimal value). -/
def validate_percent_opt (o : Option PyFloat) : Except PyExn Unit :=
  match o with
  | none => .ok ()
  | some q =>
    if q.mant < 0 ∨ q.mant > 10 ^ q.exp10 then
      .error (.valueError "Not a valid percent")
    else .ok ()

/-- `validate_non_empty_str` (`val == ""` fails; any non-string passes). -/
def validate_non_empty_str (v : JVal) : Except PyExn Unit :=
  match v with
  | .jstr s =>
    if s = "" then .error (.valueError "Expected non-empty string") else .ok ()
  | _ => .ok ()

/-- An `attr.ib(converter=int, validator=[validate_positive])` field:
converter, then validator, in order. -/
def attrPosInt (v : JVal) : Except PyExn Int := do
  let n ← pyToInt v
  validate_positive_int n
  pure n

/-- An `attr.ib(converter=convert_int_or_none, validator=[validate_positive])`
field. -/
def attrOptPosInt (v : JVal) : Except PyExn (Option Int) := do
  let o ← convert_int_or_none v
  validate_positive_opt_int o
  pure o

/-- An `attr.ib(converter=convert_float_or_none, validator=[validate_percent])`
field. -/
def attrPercent (v : JVal) : Except PyExn (Option PyFloat) := do
  let o ← convert_float_or_none v
  validate_percent_opt o
  pure o

/-- An `attr.ib(converter=float, validator=[validate_positive])` field. -/
def attrPosFloat (v : JVal) : Except PyExn PyFloat := do
  let q ← pyToFloat v
  validate_positive_rat q
  pure q

/-! ## Record model (src/restic_exporter/types.py)

Each `attr.s` class is a structure plus a `mk_...` function running its
converters and validators field by field in declaration order, as the
generated `__init__` does; any raise aborts construction. -/

structure ResticStats where
  total_size : Int
  total_file_count : Int
  total_blob_count : Option Int
deriving Repr, DecidableEq

/-- Construction of `ResticStats` from Python values. -/
def mk_ResticStats (total_size_v total_file_count_v total_blob_count_v : JVal) :
    Except PyExn ResticStats := do
  let ts ← attrPosInt total_size_v
  let fc ← attrPosInt total_file_count_v
  let bc ← attrOptPosInt total_blob_count_v
  pure ⟨ts, fc, bc⟩

structure ResticStatsBundle where
  raw : Option ResticStats
  restore : Option ResticStats
deriving Repr, DecidableEq

/-- Construction of `ResticStatsBundle`.  Both fields carry
`attr.validators.instance_of(ResticStats)`, which rejects `None` with a
`TypeError` even though the type annotations say `Optional`. -/
def mk_ResticStatsBundle (raw restore : Option ResticStats) :
    Except PyExn ResticStatsBundle := do
  match raw with
  | none => throw (.typeError "raw must be a ResticStats instance")
  | some _ => pure ()
  match restore with
  | none => throw (.typeError "restore must be a ResticStats instance")
  | some _ => pure ()
  pure ⟨raw, restore⟩

structure ResticSnapshotKeys where
  hostname : String
  paths : List JVal
  tags : Option (List JVal)
  /-- Constructed as a string or `None`, but the in-place write performed
  by `json_to_backup_summary` bypasses converters, so the field can hold
  any Python value afterwards; it is therefore kept as a `JVal`
  (`.jnull` standing for `None`). -/
  snapshot_id : JVal
deriving Repr

/-- Construction of `ResticSnapshotKeys` (the types.py variant:
`hostname` a non-empty `str`, `paths` a `list`, `tags` `None` or a
`list`, `snapshot_id` converted by `convert_str_or_none` and required
non-empty when a string). -/
def mk_ResticSnapshotKeys (hostname_v paths_v tags_v snapshot_id_v : JVal) :
    Except PyExn ResticSnapshotKeys := do
  let h ← match hostname_v with
    | .jstr s => pure s
    | _ => throw (.typeError "hostname must be a str instance")
  validate_non_empty_str (.jstr h)
  let p ← match paths_v with
    | .jarr xs => pure xs
    | _ => throw (.typeError "paths must be a list instance")
  let t ← match tags_v with
    | .jnull => pure (none : Option (List JVal))
    | .jarr xs => pure (some xs)
    | _ => throw (.typeError "tags must be None or a list instance")
  let sid := convert_str_or_none snapshot_id_v
  validate_non_empty_str sid
  pure ⟨h, p, t, sid⟩

structure ResticSnapshot where
  key : ResticSnapshotKeys
  /-- The parsed `datetime`, carried as the text it was parsed from. -/
  snapshot_time : String
  stats : Option ResticStatsBundle
deriving Repr

structure ResticBackupStatus where
  key : Nat
  files_total : Int
  bytes_total : Int
  percent_done : Option PyFloat
  files_done : Option Int
  bytes_done : Option Int
  seconds_elapsed : Option Int
  seconds_remaining : Option Int
deriving Repr, DecidableEq

/-- Construction of `ResticBackupStatus` from Python values (the `key`
argument is a reference to a `ResticSnapshotKeys`, which trivially passes
its `instance_of` validator). -/
def mk_ResticBackupStatus (key : Nat)
    (files_total_v bytes_total_v percent_done_v files_done_v bytes_done_v
      seconds_elapsed_v seconds_remaining_v : JVal) :
    Except PyExn ResticBackupStatus := do
  let ft ← attrPosInt files_total_v
  let bt ← attrPosInt bytes_total_v
  let pd ← attrPercent percent_done_v
  let fd ← attrOptPosInt files_done_v
  let bd ← attrOptPosInt bytes_done_v
  let se ← attrOptPosInt seconds_elapsed_v
  let sr ← attrOptPosInt seconds_remaining_v
  pure ⟨key, ft, bt, pd, fd, bd, se, sr⟩

structure ResticBackupSummary where
  key : Nat
  files_new : Int
  files_changed : Int
  files_unmodified : Int
  dirs_new : Int
  dirs_changed : Int
  dirs_unmodified : Int
  data_added : Int
  files_processed : Int
  bytes_processed : Int
  duration : PyFloat
deriving Repr, DecidableEq

/-- Construction of `ResticBackupSummary` from Python values
(types.py variant: `duration` has converter `float`). -/
def mk_ResticBackupSummary (key : Nat)
    (files_new_v files_changed_v files_unmodified_v dirs_new_v dirs_changed_v
      dirs_unmodified_v data_added_v files_processed_v bytes_processed_v
      duration_v : JVal) :
    Except PyExn ResticBackupSummary := do
  let fn ← attrPosInt files_new_v
  let fc ← attrPosInt files_changed_v
  let fu ← attrPosInt files_unmodified_v
  let dn ← attrPosInt dirs_new_v
  let dc ← attrPosInt dirs_changed_v
  let du ← attrPosInt dirs_unmodified_v
  let da ← attrPosInt data_added_v
  let fp ← attrPosInt files_processed_v
  let bp ← attrPosInt bytes_processed_v
  let dur ← attrPosFloat duration_v
  pure ⟨key, fn, fc, fu, dn, dc, du, da, fp, bp, dur⟩

/-! ## The mutable key store

Streaming mode shares one mutable `ResticSnapshotKeys` object between the
caller and every record produced; records refer to it by index into an
explicit store. -/

/-- A reference to a `ResticSnapshotKeys` object. -/
abbrev KeyRef := Nat

/-- The heap of live `ResticSnapshotKeys` objects. -/
abbrev KeyStore := List ResticSnapshotKeys

/-- In-place `key.snapshot_id = v` (plain attribute assignment: the old
`attr.s` API runs no converter or validator on assignment). -/
def KeyStore.setSnapshotId : KeyStore → KeyRef → JVal → KeyStore
  | [], _, _ => []
  | k :: rest, 0, v => { k with snapshot_id := v } :: rest
  | k :: rest, n + 1, v => k :: KeyStore.setSnapshotId rest n v

/-! ## JSON-to-record decoders (src/restic_exporter/types.py) -/

/-- `json_to_stats`: catches `KeyError` and `ValueError` (logging a
warning for each), so only `TypeError`-class failures escape. -/
def json_to_stats (stats_json : Option JObj) :
    Except PyExn (Option ResticStats) × List LogEvent :=
  match stats_json with
  | none => (.ok none, [])
  | some obj =>
    if obj.isEmpty then (.ok none, [])
    else
      let blob_count := (JObj.find? obj KEY_STATS_TOTAL_BLOB_COUNT).getD .jnull
      match (do
        let ts ← pySubscript (.jobj obj) KEY_STATS_TOTAL_SIZE
        let fc ← pySubscript (.jobj obj) KEY_STATS_TOTAL_FILE_COUNT
        mk_ResticStats ts fc blob_count) with
      | .ok s => (.ok (some s), [])
      | .error (.keyError k) => (.ok none, [.warnStatsMissingKey k])
      | .error (.valueError m) => (.ok none, [.warnStatsInvalidValue m])
      | .error e => (.error e, [])

/-- Recognise an ISO-8601 `YYYY-MM-DD` date prefix (the model of what
`dateutil.parser.parse` accepts; see the header comment). -/
def isoDatePrefix (s : String) : Bool :=
  match s.toList with
  | y1 :: y2 :: y3 :: y4 :: '-' :: m1 :: m2 :: '-' :: d1 :: d2 :: _ =>
    y1.isDigit && y2.isDigit && y3.isDigit && y4.isDigit &&
      m1.isDigit && m2.isDigit && d1.isDigit && d2.isDigit
  | _ => false

/-- `dateutil.parser.parse` on a JSON-decoded value: parses suitable
strings (the resulting `datetime` is carried as the source text), raises
`ParserError` on other strings and `TypeError` on non-strings. -/
def dateutil_parse (v : JVal) : Except PyExn String :=
  match v with
  | .jstr s =>
    if isoDatePrefix s then .ok s
    else .error (.parserError ("Unknown string format: " ++ s))
  | _ => .error (.typeError "Parser must be a string or character stream")

/-- `json_to_snapshot`: the outer `try` catches only `KeyError`; the
inner `try` around the time parse catches `TypeError` and `ParserError`.
`ValueError`/`TypeError` raised by the key validators are NOT caught. -/
def json_to_snapshot (snapshot_json : JVal) :
    Except PyExn (Option ResticSnapshot) × List LogEvent :=
  if !pyTruthy snapshot_json then (.ok none, [])
  else
    match pySubscript snapshot_json KEY_SNAPSHOT_TIME with
    | .error (.keyError k) => (.ok none, [.warnSnapshotMissingKey k])
    | .error e => (.error e, [])
    | .ok time_v =>
      match dateutil_parse time_v with
      | .error _ => (.ok none, [.warnUnparseableTime])
      | .ok snapshot_time =>
        match (do
          let hv ← pySubscript snapshot_json KEY_SNAPSHOT_HOSTNAME
          let pv ← pySubscript snapshot_json KEY_SNAPSHOT_PATHS
          let tv ← pyGet snapshot_json KEY_SNAPSHOT_TAGS
          let sv ← pySubscript snapshot_json KEY_SNAPSHOT_SHORT_ID
          let key ← mk_ResticSnapshotKeys hv pv tv sv
          pure (ResticSnapshot.mk key snapshot_time none)) with
        | .ok s => (.ok (some s), [])
        | .error (.keyError k) => (.ok none, [.warnSnapshotMissingKey k])
        | .error e => (.error e, [])

/-- `json_to_backup_status`: catches `KeyError` and `ValueError`,
logging a warning for each; `TypeError`-class failures escape. -/
def json_to_backup_status (status_json : JVal) (key : KeyRef) :
    Except PyExn (Option ResticBackupStatus) × List LogEvent :=
  if !pyTruthy status_json then (.ok none, [])
  else
    match (do
      let ft ← pySubscript status_json KEY_STATUS_FILES_TOTAL
      let bt ← pySubscript status_json KEY_STATUS_BYTES_TOTAL
      let pd ← pyGet status_json KEY_STATUS_PERCENT_DONE
      let fd ← pyGet status_json KEY_STATUS_FILES_DONE
      let bd ← pyGet status_json KEY_STATUS_BYTES_DONE
      let se ← pyGet status_json KEY_STATUS_SECONDS_ELAPSED
      let sr ← pyGet status_json KEY_STATUS_SECONDS_REMAINING
      mk_ResticBackupStatus key ft bt pd fd bd se sr) with
    | .ok s => (.ok (some s), [])
    | .error (.keyError k) => (.ok none, [.warnStatusMissingKey k])
    | .error (.valueError m) => (.ok none, [.warnStatusInvalidValue m])
    | .error e => (.error e, [])

/-- `json_to_backup_summary`: writes the payload's `snapshot_id` into the
caller's key object BEFORE looking up the remaining fields, so the key is
mutated even when a later lookup fails; catches `KeyError` and
`ValueError`. -/
def json_to_backup_summary (summary_json : JVal) (key : KeyRef)
    (store : KeyStore) :
    Except PyExn (Option ResticBackupSummary) × KeyStore × List LogEvent :=
  if !pyTruthy summary_json then (.ok none, store, [])
  else
    match pySubscript summary_json KEY_SUMMARY_SNAPSHOT_ID with
    | .error (.keyError k) => (.ok none, store, [.warnSummaryMissingKey k])
    | .error (.valueError m) => (.ok none, store, [.warnSummaryInvalidValue m])
    | .error e => (.error e, store, [])
    | .ok sid =>
      let store2 := KeyStore.setSnapshotId store key sid
      match (do
        let fn ← pySubscript summary_json KEY_SUMMARY_FILES_NEW
        let fc ← pySubscript summary_json KEY_SUMMARY_FILES_CHANGED
        let fu ← pySubscript summary_json KEY_SUMMARY_FILES_UNMODIFIED
        let dn ← pySubscript summary_json KEY_SUMMARY_DIRS_NEW
        let dc ← pySubscript summary_json KEY_SUMMARY_DIRS_CHANGED
        let du ← pySubscript summary_json KEY_SUMMARY_DIRS_UNMODIFIED
        let da ← pySubscript summary_json KEY_SUMMARY_DATA_ADDED
        let fp ← pySubscript summary_json KEY_SUMMARY_TOTAL_FILES_PROCESSED
        let bp ← pySubscript summary_json KEY_SUMMARY_TOTAL_BYTES_PROCESSED
        let dur ← pySubscript summary_json KEY_SUMMARY_TOTAL_DURATION
        mk_ResticBackupSummary key fn fc fu dn dc du da fp bp dur) with
      | .ok s => (.ok (some s), store2, [])
      | .error (.keyError k) => (.ok none, store2, [.warnSummaryMissingKey k])
      | .error (.valueError m) => (.ok none, store2, [.warnSummaryInvalidValue m])
      | .error e => (.error e, store2, [])

/-! ## Stats generator, streaming mode
(`ResticStatsGenerator.get_piped_stats`, src/restic_exporter/restic_exporter.py) -/

/-- An element of the list returned by `get_piped_stats`.  `pyNone`
stands for a literal Python `None` inside the returned list (a status
line whose decode failed still contributes `[None]`). -/
inductive PipedValue : Type where
  | statusRec (s : ResticBackupStatus)
  | summaryRec (s : ResticBackupSummary)
  | pyNone
deriving Repr, DecidableEq

/-- Python `x == "some string"` (`False` for every non-string value). -/
def pyEqStr (v : JVal) (s : String) : Bool :=
  match v with
  | .jstr t => t = s
  | _ => false

/-- The rate-limit suppression test of `get_piped_stats`:
`last_update is not None and window_seconds > 0 and now < last_update +
timedelta(seconds=window_seconds)`.  The clock is in seconds. -/
def rateSuppress (window_seconds : Int) (last_update : Option Int)
    (now : Int) : Bool :=
  match last_update with
  | none => false
  | some t => window_seconds > 0 && now < t + window_seconds

/-- `ResticStatsGenerator._generate_last_status_from_summary`: build the
synthetic terminal status through the `ResticBackupStatus` converters,
exactly as the constructor call does (`percent_done=1.0`,
`seconds_elapsed=summary.duration`, `seconds_remaining` left at its
`None` default). -/
def generate_last_status_from_summary (summary : ResticBackupSummary) :
    Except PyExn ResticBackupStatus :=
  mk_ResticBackupStatus summary.key
    (.jint summary.files_processed) (.jint summary.bytes_processed)
    (.jfloat ⟨1, 0⟩) (.jint summary.files_processed)
    (.jint summary.bytes_processed) (.jfloat summary.duration) .jnull

/-- `ResticStatsGenerator.get_piped_stats`.

* `parsedLine` is the `json.loads` of the input line (`none` = the line
  was not valid JSON, in which case the `except` clause returns `[]`).
* The result quadruple is (return value, key store, new
  `_backup_status_last_update`, log events); the returned
  `Option (List PipedValue)` distinguishes a Python list from the
  implicit `None` produced when the function falls off the end (an
  unrecognised message type). -/
def get_piped_stats (parsedLine : Option JVal) (key : KeyRef)
    (window_seconds : Int) (last_update : Option Int) (now : Int)
    (store : KeyStore) :
    Except PyExn (Option (List PipedValue)) × KeyStore × Option Int ×
      List LogEvent :=
  match parsedLine with
  | none => (.ok (some []), store, last_update, [])
  | some data =>
    match pyContains data KEY_MESSAGE_TYPE with
    | .error e => (.error e, store, last_update, [])
    | .ok false => (.ok (some []), store, last_update, [])
    | .ok true =>
      match pySubscript data KEY_MESSAGE_TYPE with
      | .error e => (.error e, store, last_update, [])
      | .ok mt =>
        if pyEqStr mt KEY_MESSAGE_TYPE_STATUS then
          if rateSuppress window_seconds last_update now then
            (.ok (some []), store, last_update, [])
          else
            match json_to_backup_status data key with
            | (.ok (some s), logs) =>
              (.ok (some [.statusRec s]), store, some now, logs)
            | (.ok none, logs) =>
              (.ok (some [.pyNone]), store, some now, logs)
            | (.error e, logs) => (.error e, store, some now, logs)
        else if pyEqStr mt KEY_MESSAGE_TYPE_SUMMARY then
          match json_to_backup_summary data key store with
          | (.ok none, store2, logs) =>
            (.ok (some []), store2, last_update, logs)
          | (.ok (some s), store2, logs) =>
            match generate_last_status_from_summary s with
            | .ok st =>
              (.ok (some [.statusRec st, .summaryRec s]), store2,
                last_update, logs)
            | .error e => (.error e, store2, last_update, logs)
          | (.error e, store2, logs) => (.error e, store2, last_update, logs)
        else
          (.ok none, store, last_update, [])

/-! ## Executor listing and batch mode
(`ResticExecutor.get_snapshots`, `ResticStatsGenerator.get_snapshot_stats`) -/

/-- Python iteration over a JSON value (`for x in v`): lists yield their
elements, dicts their keys, strings their characters; everything else
raises `TypeError`. -/
def pyIter (v : JVal) : Except PyExn (List JVal) :=
  match v with
  | .jarr xs => .ok xs
  | .jobj fields => .ok (fields.map fun p => .jstr p.1)
  | .jstr s => .ok (s.toList.map fun c => .jstr (String.mk [c]))
  | _ => .error (.typeError "value is not iterable")

/-- Iterate over `v or []` (a falsy value iterates as the empty list). -/
def pyIterOrEmpty (v : JVal) : Except PyExn (List JVal) :=
  if pyTruthy v then pyIter v else .ok []

/-- The inner loop of `get_snapshots`:
`snapshots += [json_to_snapshot(snapshot)] or []` for each entry.  The
one-element list is always truthy, so every entry appends exactly one
element — `None` when the decode returned absence.  A decoder exception
aborts the loop and escapes. -/
def decodeSnapshotEntries :
    List JVal → Except PyExn (List (Option ResticSnapshot)) × List LogEvent
  | [] => (.ok [], [])
  | e :: rest =>
    match json_to_snapshot e with
    | (.ok os, logs) =>
      match decodeSnapshotEntries rest with
      | (.ok l, logs2) => (.ok (os :: l), logs ++ logs2)
      | (.error ex, logs2) => (.error ex, logs ++ logs2)
    | (.error ex, logs) => (.error ex, logs)

/-- The outer loop of `get_snapshots` over the listing's group objects:
`for snapshot in grouped_snapshot.get(KEY_SNAPSHOTS) or []`. -/
def decodeSnapshotGroups :
    List JVal → Except PyExn (List (Option ResticSnapshot)) × List LogEvent
  | [] => (.ok [], [])
  | g :: rest =>
    match pyGet g KEY_SNAPSHOTS with
    | .error e => (.error e, [])
    | .ok sv =>
      match pyIterOrEmpty sv with
      | .error e => (.error e, [])
      | .ok entries =>
        match decodeSnapshotEntries entries with
        | (.ok l, logs) =>
          match decodeSnapshotGroups rest with
          | (.ok l2, logs2) => (.ok (l ++ l2), logs ++ logs2)
          | (.error ex, logs2) => (.error ex, logs ++ logs2)
        | (.error ex, logs) => (.error ex, logs)

/-- `ResticExecutor.get_snapshots`, given the parsed JSON output of the
`snapshots` subcommand (`none` = the command failed or produced
non-JSON, which `_run_command` surfaces as `None`).  Logs the
"No valid snapshots found" warning exactly when the accumulated list is
empty. -/
def get_snapshots (result : Option JVal) :
    Except PyExn (List (Option ResticSnapshot)) × List LogEvent :=
  match pyIterOrEmpty ((result).getD (.jarr [])) with
  | .error e => (.error e, [])
  | .ok groups =>
    match decodeSnapshotGroups groups with
    | (.ok snaps, logs) =>
      (.ok snaps, logs ++ if snaps.isEmpty then [.warnNoSnapshots] else [])
    | (.error ex, logs) => (.error ex, logs)

/-- The enrichment loop of `get_snapshot_stats`: for every snapshot in
the listing, attach `ResticStatsBundle(raw=get_stats(..., raw-data),
restore=get_stats(..., restore-size))` scoped to the snapshot's id.
`stats_fn mode ids` abstracts `executor.get_stats` (its `Option` result
is the decoded stats of the subprocess call, absent on any failure).  A
`None` listing entry aborts with the `AttributeError` (modelled as
`TypeError`) that `None.stats = ...` raises. -/
def enrichSnapshots (stats_fn : String → List JVal → Option ResticStats) :
    List (Option ResticSnapshot) → Except PyExn (List ResticSnapshot)
  | [] => .ok []
  | none :: _ => .error (.typeError "NoneType has no attribute stats")
  | some snap :: rest => do
    let bundle ← mk_ResticStatsBundle
      (stats_fn KEY_MODE_RAW_DATA [snap.key.snapshot_id])
      (stats_fn KEY_MODE_RESTORE_SIZE [snap.key.snapshot_id])
    let rest2 ← enrichSnapshots stats_fn rest
    pure ({ snap with stats := some bundle } :: rest2)

/-- `ResticStatsGenerator.get_snapshot_stats`: fetch the listing, then
enrich every snapshot with its two-sided stats bundle. -/
def get_snapshot_stats (result : Option JVal)
    (stats_fn : String → List JVal → Option ResticStats) :
    Except PyExn (List ResticSnapshot) × List LogEvent :=
  match get_snapshots result with
  | (.ok snaps, logs) =>
    match enrichSnapshots stats_fn snaps with
    | .ok l => (.ok l, logs)
    | .error e => (.error e, logs)
  | (.error e, logs) => (.error e, logs)

/-! ## Repository-wide stats -/

/-- Modelled from the spec: the `RepoStats` record — "a `StatsBundle`
with no owning key (repository, not snapshot, scoped)", each side
optional — is absent from src/ (only `tests/` and `exporters.py` refer
to `ResticRepoStats`), so it is reconstructed from the spec's words. -/
structure ResticRepoStats where
  raw : Option ResticStats
  restore : Option ResticStats
deriving Repr, DecidableEq

/-- Modelled from the spec: `get_repo_stats` — "issues the same two
stats calls with no snapshot scoping (repository-wide) and wraps the
result as a single-element sequence containing one `RepoStats`" — is
absent from src/ (the monolith only has the one-mode helper
`_get_repo_stats`); reconstructed from the spec's words, with
`stats_fn mode ids` abstracting `executor.get_stats` as above and `[]`
meaning no snapshot-id scoping. -/
def get_repo_stats (stats_fn : String → List JVal → Option ResticStats) :
    List ResticRepoStats :=
  [⟨stats_fn KEY_MODE_RAW_DATA [], stats_fn KEY_MODE_RESTORE_SIZE []⟩]

/-! ## Listing-entry view (used to state properties of `get_snapshots`) -/

/-- The flat sequence of snapshot entries a grouped listing holds (the
iteration structure of `get_snapshots`, without the decoding). -/
def entriesOfGroups : List JVal → Except PyExn (List JVal)
  | [] => .ok []
  | g :: rest => do
    let sv ← pyGet g KEY_SNAPSHOTS
    let es ← pyIterOrEmpty sv
    let rest2 ← entriesOfGroups rest
    pure (es ++ rest2)

/-- All snapshot entries of a listing, in order. -/
def listingEntries (result : Option JVal) : Except PyExn (List JVal) :=
  match pyIterOrEmpty ((result).getD (.jarr [])) with
  | .error e => .error e
  | .ok groups => entriesOfGroups groups

/-- The decode outcome of one listing entry (`none` = absence). -/
def decodedEntry (e : JVal) : Option ResticSnapshot :=
  match (json_to_snapshot e).1 with
  | .ok o => o
  | .error _ => none

/-! ## Concrete test vectors

The JSON fixtures of `src/tests/` (`TEST_BACKUP_STATUS_DATA`,
`TEST_BACKUP_SUMMARY_DATA`, `TEST_SNAPSHOT_DATA`,
`TEST_GROUPED_SNAPSHOT_DATA`), plus the variations the claims describe. -/

def backup_status_json : JVal := .jobj [
  ("message_type", .jstr "status"), ("percent_done", .jfloat ⟨25, 2⟩),
  ("total_files", .jint 9586), ("files_done", .jint 2321),
  ("total_bytes", .jint 147893659), ("bytes_done", .jint 36953149)]

/-- `TEST_BACKUP_STATUS_DATA` with the out-of-range `percent_done` 2.0. -/
def backup_status_json_bad_percent : JVal := .jobj [
  ("message_type", .jstr "status"), ("percent_done", .jfloat ⟨20, 1⟩),
  ("total_files", .jint 9586), ("files_done", .jint 2321),
  ("total_bytes", .jint 147893659), ("bytes_done", .jint 36953149)]

def backup_summary_json : JVal := .jobj [
  ("message_type", .jstr "summary"), ("files_new", .jint 1265),
  ("files_changed", .jint 41), ("files_unmodified", .jint 77637),
  ("dirs_new", .jint 217), ("dirs_changed", .jint 44),
  ("dirs_unmodified", .jint 17511), ("data_blobs", .jint 849),
  ("tree_blobs", .jint 262), ("data_added", .jint 14909514),
  ("total_files_processed", .jint 78943),
  ("total_bytes_processed", .jint 1667325955),
  ("total_duration", .jfloat ⟨4035790225, 9⟩),
  ("snapshot_id", .jstr "a34dda71")]

/-- `TEST_BACKUP_SUMMARY_DATA` without the required `files_new`. -/
def backup_summary_json_missing_files_new : JVal := .jobj [
  ("message_type", .jstr "summary"),
  ("files_changed", .jint 41), ("files_unmodified", .jint 77637),
  ("dirs_new", .jint 217), ("dirs_changed", .jint 44),
  ("dirs_unmodified", .jint 17511), ("data_blobs", .jint 849),
  ("tree_blobs", .jint 262), ("data_added", .jint 14909514),
  ("total_files_processed", .jint 78943),
  ("total_bytes_processed", .jint 1667325955),
  ("total_duration", .jfloat ⟨4035790225, 9⟩),
  ("snapshot_id", .jstr "a34dda71")]

def snapshot_json_valid : JVal := .jobj [
  ("time", .jstr "2020-12-28T21:28:23.403981118-08:00"),
  ("paths", .jarr [.jstr "/path/whatever"]),
  ("hostname", .jstr "hostname"),
  ("id", .jstr "1234"), ("short_id", .jstr "12")]

/-- A listing entry with an invalid field value: an empty hostname. -/
def snapshot_json_empty_hostname : JVal := .jobj [
  ("time", .jstr "2020-12-28T21:28:23.403981118-08:00"),
  ("paths", .jarr [.jstr "/path/whatever"]),
  ("hostname", .jstr ""),
  ("id", .jstr "1234"), ("short_id", .jstr "12")]

/-- A listing entry that fails to decode (missing required `time`). -/
def snapshot_json_missing_time : JVal := .jobj [
  ("paths", .jarr [.jstr "/path/whatever"]),
  ("hostname", .jstr "hostname"),
  ("id", .jstr "1234"), ("short_id", .jstr "12")]

/-- A grouped listing with one group holding one good and one failing
snapshot entry. -/
def grouped_listing_json : JVal := .jarr [.jobj [
  ("group_key", .jobj [("hostname", .jstr "hostname")]),
  ("snapshots", .jarr [snapshot_json_valid, snapshot_json_missing_time])]]

/-- A grouped listing with one group holding one good snapshot entry. -/
def grouped_listing_json_valid : JVal := .jarr [.jobj [
  ("group_key", .jobj [("hostname", .jstr "hostname")]),
  ("snapshots", .jarr [snapshot_json_valid])]]

/-- The streaming-mode key built by `get_snapshot_key_from_args`
(`hostname`/`path1`, no tags, no snapshot id yet). -/
def pipe_key : ResticSnapshotKeys := ⟨"hostname", [.jstr "path1"], none, .jnull⟩

/-- A heap holding just the caller's key, referenced as key `0`. -/
def store0 : KeyStore := [pipe_key]

/-- `store0` after the summary decode wrote the payload's snapshot id. -/
def store_after_summary : KeyStore :=
  [⟨"hostname", [.jstr "path1"], none, .jstr "a34dda71"⟩]

/-- The decode of `backup_status_json` against key `0`. -/
def decoded_status : ResticBackupStatus :=
  ⟨0, 9586, 147893659, some ⟨25, 2⟩, some 2321, some 36953149, none, none⟩

/-- The decode of `backup_summary_json` against key `0`. -/
def decoded_summary : ResticBackupSummary :=
  ⟨0, 1265, 41, 77637, 217, 44, 17511, 14909514, 78943, 1667325955,
    ⟨4035790225, 9⟩⟩

/-- The synthetic terminal status derived from `decoded_summary`
(`seconds_elapsed` = 4.035790225 truncated to 4). -/
def terminal_status : ResticBackupStatus :=
  ⟨0, 78943, 1667325955, some ⟨1, 0⟩, some 78943, some 1667325955, some 4,
    none⟩

/-- The decode of `snapshot_json_valid`. -/
def decoded_snapshot : ResticSnapshot :=
  ⟨⟨"hostname", [.jstr "/path/whatever"], none, .jstr "12"⟩,
    "2020-12-28T21:28:23.403981118-08:00", none⟩

/-- An `executor.get_stats` collaborator whose subprocess calls always
fail (decoded stats absent for every mode). -/
def stats_fn_absent : String → List JVal → Option ResticStats := fun _ _ => none

/-! ## Supporting lemmas -/

theorem exbind_ok {ε α β : Type} {x : Except ε α} {f : α → Except ε β} {b : β}
    (h : x >>= f = .ok b) : ∃ a, x = .ok a ∧ f a = .ok b := by
  cases x with
  | error e => simp [Bind.bind, Except.bind] at h
  | ok a => exact ⟨a, rfl, by simpa [Bind.bind, Except.bind] using h⟩

theorem attrPosInt_nonneg {v : JVal} {n : Int} (h : attrPosInt v = .ok n) :
    0 ≤ n := by
  unfold attrPosInt at h
  obtain ⟨m, hm, h⟩ := exbind_ok h
  obtain ⟨u, hu, h⟩ := exbind_ok h
  unfold validate_positive_int at hu
  by_cases hlt : m < 0
  · simp [hlt] at hu
  · simp [Except.pure, pure] at h
    omega

theorem attrPosFloat_nonneg {v : JVal} {q : PyFloat}
    (h : attrPosFloat v = .ok q) : 0 ≤ q.mant := by
  unfold attrPosFloat at h
  obtain ⟨m, hm, h⟩ := exbind_ok h
  obtain ⟨u, hu, h⟩ := exbind_ok h
  unfold validate_positive_rat at hu
  by_cases hlt : m.mant < 0
  · simp [hlt] at hu
  · simp [Except.pure, pure] at h
    subst h
    exact le_of_not_lt hlt

theorem attrPosInt_jint {n : Int} (h : 0 ≤ n) : attrPosInt (.jint n) = .ok n := by
  simp [attrPosInt, pyToInt, validate_positive_int, Bind.bind, Except.bind,
    not_lt.mpr h, pure, Except.pure]

theorem attrOptPosInt_jint {n : Int} (h : 0 ≤ n) :
    attrOptPosInt (.jint n) = .ok (some n) := by
  simp [attrOptPosInt, convert_int_or_none, pyToInt, validate_positive_opt_int,
    validate_positive_int, Bind.bind, Except.bind, not_lt.mpr h, pure,
    Except.pure, Except.map]

theorem pyTrunc_nonneg {q : PyFloat} (h : 0 ≤ q.mant) : 0 ≤ pyTrunc q := by
  unfold pyTrunc
  rw [if_pos h]
  exact Int.natCast_nonneg _

theorem attrOptPosInt_jfloat {q : PyFloat} (h : 0 ≤ q.mant) :
    attrOptPosInt (.jfloat q) = .ok (some (pyTrunc q)) := by
  simp [attrOptPosInt, convert_int_or_none, pyToInt, validate_positive_opt_int,
    validate_positive_int, Bind.bind, Except.bind, not_lt.mpr (pyTrunc_nonneg h),
    pure, Except.pure, Except.map]

theorem attrPercent_one :
    attrPercent (.jfloat ⟨1, 0⟩) = .ok (some ⟨1, 0⟩) := by
  simp [attrPercent, convert_float_or_none, pyToFloat, validate_percent_opt,
    Bind.bind, Except.bind, pure, Except.pure, Except.map]

theorem attrOptPosInt_jnull : attrOptPosInt .jnull = .ok none := rfl

theorem generate_last_status_ok (s : ResticBackupSummary)
    (hfp : 0 ≤ s.files_processed) (hbp : 0 ≤ s.bytes_processed)
    (hdur : 0 ≤ s.duration.mant) :
    generate_last_status_from_summary s =
      .ok ⟨s.key, s.files_processed, s.bytes_processed, some ⟨1, 0⟩,
        some s.files_processed, some s.bytes_processed,
        some (pyTrunc s.duration), none⟩ := by
  unfold generate_last_status_from_summary mk_ResticBackupStatus
  rw [attrPosInt_jint hfp]
  simp only [Bind.bind, Except.bind]
  rw [attrPosInt_jint hbp]
  simp only [attrPercent_one]
  rw [attrOptPosInt_jint hfp]
  rw [attrOptPosInt_jint hbp]
  rw [attrOptPosInt_jfloat hdur]
  simp [attrOptPosInt_jnull, pure, Except.pure]

theorem JObj.find?_any {fields : JObj} {key : String} {x : JVal}
    (h : JObj.find? fields key = some x) :
    (fields.any fun p => p.1 = key) = true := by
  induction fields with
  | nil => simp [JObj.find?] at h
  | cons hd tl ih =>
    unfold JObj.find? at h
    by_cases hk : hd.1 = key
    · simp [List.any_cons, hk]
    · obtain ⟨k, v⟩ := hd
      simp only at hk
      rw [if_neg hk] at h
      simp [List.any_cons, ih h]

theorem pyContains_of_subscript {data : JVal} {key : String} {x : JVal}
    (h : pySubscript data key = .ok x) : pyContains data key = .ok true := by
  cases data
  case jobj fields =>
    simp only [pySubscript] at h
    simp only [pyContains]
    cases hf : JObj.find? fields key with
    | none => rw [hf] at h; exact absurd h (by simp)
    | some y => rw [JObj.find?_any hf]
  all_goals exact absurd h (by simp [pySubscript])

theorem pyTruthy_of_subscript {data : JVal} {key : String} {x : JVal}
    (h : pySubscript data key = .ok x) : pyTruthy data = true := by
  cases data
  case jobj fields =>
    cases fields with
    | nil => simp [pySubscript, JObj.find?] at h
    | cons hd tl => simp [pyTruthy]
  all_goals exact absurd h (by simp [pySubscript])

theorem mk_ResticBackupSummary_ok_inv {key : Nat}
    {v0 v1 v2 v3 v4 v5 v6 v7 v8 v9 : JVal} {s : ResticBackupSummary}
    (h : mk_ResticBackupSummary key v0 v1 v2 v3 v4 v5 v6 v7 v8 v9 = .ok s) :
    s.key = key ∧ 0 ≤ s.files_processed ∧ 0 ≤ s.bytes_processed ∧
      0 ≤ s.duration.mant := by
  unfold mk_ResticBackupSummary at h
  obtain ⟨fn, hfn, h⟩ := exbind_ok h
  obtain ⟨fc, hfc, h⟩ := exbind_ok h
  obtain ⟨fu, hfu, h⟩ := exbind_ok h
  obtain ⟨dn, hdn, h⟩ := exbind_ok h
  obtain ⟨dc, hdc, h⟩ := exbind_ok h
  obtain ⟨du, hdu, h⟩ := exbind_ok h
  obtain ⟨da, hda, h⟩ := exbind_ok h
  obtain ⟨fp, hfp, h⟩ := exbind_ok h
  obtain ⟨bp, hbp, h⟩ := exbind_ok h
  obtain ⟨dur, hdur, h⟩ := exbind_ok h
  simp only [pure, Except.pure, Except.ok.injEq] at h
  subst h
  exact ⟨rfl, attrPosInt_nonneg hfp, attrPosInt_nonneg hbp,
    attrPosFloat_nonneg hdur⟩

theorem json_to_backup_summary_some_inv {data : JVal} {key : KeyRef}
    {store store2 : KeyStore} {s : ResticBackupSummary} {logs : List LogEvent}
    (h : json_to_backup_summary data key store = (.ok (some s), store2, logs)) :
    s.key = key ∧ 0 ≤ s.files_processed ∧ 0 ≤ s.bytes_processed ∧
      0 ≤ s.duration.mant ∧ logs = [] ∧
      ∃ sid, pySubscript data KEY_SUMMARY_SNAPSHOT_ID = .ok sid ∧
        store2 = KeyStore.setSnapshotId store key sid := by
  unfold json_to_backup_summary at h
  by_cases htr : pyTruthy data
  · rw [if_neg (by simp [htr])] at h
    cases hsid : pySubscript data KEY_SUMMARY_SNAPSHOT_ID with
    | error e =>
      rw [hsid] at h
      cases e <;> simp_all
    | ok sid =>
      rw [hsid] at h
      simp only at h
      generalize hE : (do
        let fn ← pySubscript data KEY_SUMMARY_FILES_NEW
        let fc ← pySubscript data KEY_SUMMARY_FILES_CHANGED
        let fu ← pySubscript data KEY_SUMMARY_FILES_UNMODIFIED
        let dn ← pySubscript data KEY_SUMMARY_DIRS_NEW
        let dc ← pySubscript data KEY_SUMMARY_DIRS_CHANGED
        let du ← pySubscript data KEY_SUMMARY_DIRS_UNMODIFIED
        let da ← pySubscript data KEY_SUMMARY_DATA_ADDED
        let fp ← pySubscript data KEY_SUMMARY_TOTAL_FILES_PROCESSED
        let bp ← pySubscript data KEY_SUMMARY_TOTAL_BYTES_PROCESSED
        let dur ← pySubscript data KEY_SUMMARY_TOTAL_DURATION
        mk_ResticBackupSummary key fn fc fu dn dc du da fp bp dur :
          Except PyExn ResticBackupSummary) = E at h
      cases E with
      | ok s2 =>
        simp only [Prod.mk.injEq, Except.ok.injEq, Option.some.injEq] at h
        obtain ⟨hs, hst, hlogs⟩ := h
        subst hs
        obtain ⟨fn, _, hE⟩ := exbind_ok hE
        obtain ⟨fc, _, hE⟩ := exbind_ok hE
        obtain ⟨fu, _, hE⟩ := exbind_ok hE
        obtain ⟨dn, _, hE⟩ := exbind_ok hE
        obtain ⟨dc, _, hE⟩ := exbind_ok hE
        obtain ⟨du, _, hE⟩ := exbind_ok hE
        obtain ⟨da, _, hE⟩ := exbind_ok hE
        obtain ⟨fp, _, hE⟩ := exbind_ok hE
        obtain ⟨bp, _, hE⟩ := exbind_ok hE
        obtain ⟨dur, _, hE⟩ := exbind_ok hE
        obtain ⟨hkey, h1, h2, h3⟩ := mk_ResticBackupSummary_ok_inv hE
        exact ⟨hkey, h1, h2, h3, hlogs.symm, sid, rfl, hst.symm⟩
      | error e => cases e <;> simp_all
  · rw [if_pos (by simp [htr])] at h
    simp at h

theorem piped_summary_emits {data : JVal} {key : KeyRef} {w : Int}
    {last : Option Int} {now : Int} {store store2 : KeyStore}
    {s : ResticBackupSummary} {logs : List LogEvent}
    (hmt : pySubscript data KEY_MESSAGE_TYPE = .ok (.jstr KEY_MESSAGE_TYPE_SUMMARY))
    (hdec : json_to_backup_summary data key store = (.ok (some s), store2, logs)) :
    get_piped_stats (some data) key w last now store =
      (.ok (some [.statusRec ⟨s.key, s.files_processed, s.bytes_processed,
        some ⟨1, 0⟩, some s.files_processed, some s.bytes_processed,
        some (pyTrunc s.duration), none⟩, .summaryRec s]), store2, last,
        logs) := by
  obtain ⟨hkey, h1, h2, h3, hlogs, _⟩ := json_to_backup_summary_some_inv hdec
  unfold get_piped_stats
  simp only [pyContains_of_subscript hmt, hmt, hdec,
    generate_last_status_ok s h1 h2 h3, pyEqStr, KEY_MESSAGE_TYPE_STATUS,
    KEY_MESSAGE_TYPE_SUMMARY]
  simp

theorem piped_summary_absent {data : JVal} {key : KeyRef} {w : Int}
    {last : Option Int} {now : Int} {store store2 : KeyStore}
    {logs : List LogEvent}
    (hmt : pySubscript data KEY_MESSAGE_TYPE = .ok (.jstr KEY_MESSAGE_TYPE_SUMMARY))
    (hdec : json_to_backup_summary data key store = (.ok none, store2, logs)) :
    get_piped_stats (some data) key w last now store =
      (.ok (some []), store2, last, logs) := by
  unfold get_piped_stats
  simp only [pyContains_of_subscript hmt, hmt, hdec, pyEqStr,
    KEY_MESSAGE_TYPE_STATUS, KEY_MESSAGE_TYPE_SUMMARY]
  simp

theorem piped_status_suppressed {data : JVal} {key : KeyRef} {w : Int}
    {last : Option Int} {now : Int} {store : KeyStore}
    (hmt : pySubscript data KEY_MESSAGE_TYPE = .ok (.jstr KEY_MESSAGE_TYPE_STATUS))
    (hsup : rateSuppress w last now = true) :
    get_piped_stats (some data) key w last now store =
      (.ok (some []), store, last, []) := by
  unfold get_piped_stats
  simp only [pyContains_of_subscript hmt, hmt, hsup, pyEqStr,
    KEY_MESSAGE_TYPE_STATUS]
  simp

theorem piped_status_emit_some {data : JVal} {key : KeyRef} {w : Int}
    {last : Option Int} {now : Int} {store : KeyStore}
    {st : ResticBackupStatus} {logs : List LogEvent}
    (hmt : pySubscript data KEY_MESSAGE_TYPE = .ok (.jstr KEY_MESSAGE_TYPE_STATUS))
    (hsup : rateSuppress w last now = false)
    (hdec : json_to_backup_status data key = (.ok (some st), logs)) :
    get_piped_stats (some data) key w last now store =
      (.ok (some [.statusRec st]), store, some now, logs) := by
  unfold get_piped_stats
  simp only [pyContains_of_subscript hmt, hmt, hsup, hdec, pyEqStr,
    KEY_MESSAGE_TYPE_STATUS]
  simp

theorem piped_status_emit_none {data : JVal} {key : KeyRef} {w : Int}
    {last : Option Int} {now : Int} {store : KeyStore} {logs : List LogEvent}
    (hmt : pySubscript data KEY_MESSAGE_TYPE = .ok (.jstr KEY_MESSAGE_TYPE_STATUS))
    (hsup : rateSuppress w last now = false)
    (hdec : json_to_backup_status data key = (.ok none, logs)) :
    get_piped_stats (some data) key w last now store =
      (.ok (some [.pyNone]), store, some now, logs) := by
  unfold get_piped_stats
  simp only [pyContains_of_subscript hmt, hmt, hsup, hdec, pyEqStr,
    KEY_MESSAGE_TYPE_STATUS]
  simp

theorem json_to_backup_summary_none_inv {data : JVal} {key : KeyRef}
    {store store2 : KeyStore} {logs : List LogEvent}
    (h : json_to_backup_summary data key store = (.ok none, store2, logs)) :
    (∀ sid, pySubscript data KEY_SUMMARY_SNAPSHOT_ID = .ok sid →
      store2 = KeyStore.setSnapshotId store key sid) ∧
    ((∀ sid, pySubscript data KEY_SUMMARY_SNAPSHOT_ID ≠ .ok sid) →
      store2 = store) := by
  unfold json_to_backup_summary at h
  by_cases htr : pyTruthy data
  · rw [if_neg (by simp [htr])] at h
    cases hsid : pySubscript data KEY_SUMMARY_SNAPSHOT_ID with
    | error e =>
      rw [hsid] at h
      cases e <;> simp_all
    | ok sid =>
      rw [hsid] at h
      simp only at h
      constructor
      · intro sid2 hsid2
        cases hsid2
        generalize hE : (do
          let fn ← pySubscript data KEY_SUMMARY_FILES_NEW
          let fc ← pySubscript data KEY_SUMMARY_FILES_CHANGED
          let fu ← pySubscript data KEY_SUMMARY_FILES_UNMODIFIED
          let dn ← pySubscript data KEY_SUMMARY_DIRS_NEW
          let dc ← pySubscript data KEY_SUMMARY_DIRS_CHANGED
          let du ← pySubscript data KEY_SUMMARY_DIRS_UNMODIFIED
          let da ← pySubscript data KEY_SUMMARY_DATA_ADDED
          let fp ← pySubscript data KEY_SUMMARY_TOTAL_FILES_PROCESSED
          let bp ← pySubscript data KEY_SUMMARY_TOTAL_BYTES_PROCESSED
          let dur ← pySubscript data KEY_SUMMARY_TOTAL_DURATION
          mk_ResticBackupSummary key fn fc fu dn dc du da fp bp dur :
            Except PyExn ResticBackupSummary) = E at h
        cases E with
        | ok s2 => simp at h
        | error e => cases e <;> simp_all
      · intro hne
        exact absurd rfl (hne sid)
  · rw [if_pos (by simp [htr])] at h
    simp only [Prod.mk.injEq] at h
    exact ⟨fun sid hsid => by
      rcases h with ⟨-, hst, -⟩
      exact absurd (pyTruthy_of_subscript hsid) (by simp [htr]),
      fun _ => by rcases h with ⟨-, hst, -⟩; exact hst.symm⟩

theorem KeyStore.get_setSnapshotId {store : KeyStore} {r : KeyRef} {v : JVal}
    (h : r < store.length) :
    ∃ k, store.get? r = some k ∧
      (KeyStore.setSnapshotId store r v).get? r =
        some { k with snapshot_id := v } := by
  induction store generalizing r with
  | nil => simp at h
  | cons hd tl ih =>
    cases r with
    | zero => exact ⟨hd, rfl, rfl⟩
    | succ n =>
      simp only [List.length_cons, Nat.succ_lt_succ_iff] at h
      obtain ⟨k, h1, h2⟩ := ih (Nat.lt_of_succ_lt_succ (Nat.succ_lt_succ h))
      exact ⟨k, h1, by simpa [KeyStore.setSnapshotId] using h2⟩

theorem json_to_stats_uncaught {obj : Option JObj} {e : PyExn}
    (h : (json_to_stats obj).1 = .error e) :
    ∀ m, e ≠ .keyError m ∧ e ≠ .valueError m := by
  unfold json_to_stats at h
  cases obj with
  | none => simp at h
  | some o =>
    by_cases he : o.isEmpty
    · simp [he] at h
    · simp only [he, Bool.false_eq_true, if_false] at h
      generalize hE : (do
        let ts ← pySubscript (.jobj o) KEY_STATS_TOTAL_SIZE
        let fc ← pySubscript (.jobj o) KEY_STATS_TOTAL_FILE_COUNT
        mk_ResticStats ts fc ((JObj.find? o KEY_STATS_TOTAL_BLOB_COUNT).getD .jnull) :
          Except PyExn ResticStats) = E at h
      cases E with
      | ok s => simp at h
      | error e2 => cases e2 <;> simp_all <;> (subst h; simp)

theorem json_to_backup_status_uncaught {data : JVal} {key : KeyRef} {e : PyExn}
    (h : (json_to_backup_status data key).1 = .error e) :
    ∀ m, e ≠ .keyError m ∧ e ≠ .valueError m := by
  unfold json_to_backup_status at h
  by_cases htr : pyTruthy data
  · rw [if_neg (by simp [htr])] at h
    generalize hE : (do
      let ft ← pySubscript data KEY_STATUS_FILES_TOTAL
      let bt ← pySubscript data KEY_STATUS_BYTES_TOTAL
      let pd ← pyGet data KEY_STATUS_PERCENT_DONE
      let fd ← pyGet data KEY_STATUS_FILES_DONE
      let bd ← pyGet data KEY_STATUS_BYTES_DONE
      let se ← pyGet data KEY_STATUS_SECONDS_ELAPSED
      let sr ← pyGet data KEY_STATUS_SECONDS_REMAINING
      mk_ResticBackupStatus key ft bt pd fd bd se sr :
        Except PyExn ResticBackupStatus) = E at h
    cases E with
    | ok s => simp at h
    | error e2 => cases e2 <;> simp_all <;> (subst h; simp)
  · rw [if_pos (by simp [htr])] at h
    simp at h

theorem json_to_backup_summary_uncaught {data : JVal} {key : KeyRef}
    {store : KeyStore} {e : PyExn}
    (h : (json_to_backup_summary data key store).1 = .error e) :
    ∀ m, e ≠ .keyError m ∧ e ≠ .valueError m := by
  unfold json_to_backup_summary at h
  by_cases htr : pyTruthy data
  · rw [if_neg (by simp [htr])] at h
    cases hsid : pySubscript data KEY_SUMMARY_SNAPSHOT_ID with
    | error e2 =>
      rw [hsid] at h
      cases e2 <;> simp_all <;> (subst h; simp)
    | ok sid =>
      rw [hsid] at h
      simp only at h
      generalize hE : (do
        let fn ← pySubscript data KEY_SUMMARY_FILES_NEW
        let fc ← pySubscript data KEY_SUMMARY_FILES_CHANGED
        let fu ← pySubscript data KEY_SUMMARY_FILES_UNMODIFIED
        let dn ← pySubscript data KEY_SUMMARY_DIRS_NEW
        let dc ← pySubscript data KEY_SUMMARY_DIRS_CHANGED
        let du ← pySubscript data KEY_SUMMARY_DIRS_UNMODIFIED
        let da ← pySubscript data KEY_SUMMARY_DATA_ADDED
        let fp ← pySubscript data KEY_SUMMARY_TOTAL_FILES_PROCESSED
        let bp ← pySubscript data KEY_SUMMARY_TOTAL_BYTES_PROCESSED
        let dur ← pySubscript data KEY_SUMMARY_TOTAL_DURATION
        mk_ResticBackupSummary key fn fc fu dn dc du da fp bp dur :
          Except PyExn ResticBackupSummary) = E at h
      cases E with
      | ok s => simp at h
      | error e2 => cases e2 <;> simp_all <;> (subst h; simp)
  · rw [if_pos (by simp [htr])] at h
    simp at h

theorem json_to_snapshot_uncaught {j : JVal} {e : PyExn}
    (h : (json_to_snapshot j).1 = .error e) :
    ∀ m, e ≠ .keyError m := by
  unfold json_to_snapshot at h
  by_cases htr : pyTruthy j
  · rw [if_neg (by simp [htr])] at h
    cases ht : pySubscript j KEY_SNAPSHOT_TIME with
    | error e2 =>
      rw [ht] at h
      cases e2 <;> simp_all <;> (subst h; simp)
    | ok tv =>
      rw [ht] at h
      simp only at h
      cases hd : dateutil_parse tv with
      | error e2 => simp [hd] at h
      | ok dt =>
        rw [hd] at h
        simp only at h
        generalize hE : (do
          let hv ← pySubscript j KEY_SNAPSHOT_HOSTNAME
          let pv ← pySubscript j KEY_SNAPSHOT_PATHS
          let tv2 ← pyGet j KEY_SNAPSHOT_TAGS
          let sv ← pySubscript j KEY_SNAPSHOT_SHORT_ID
          let key ← mk_ResticSnapshotKeys hv pv tv2 sv
          pure (ResticSnapshot.mk key dt none) :
            Except PyExn ResticSnapshot) = E at h
        cases E with
        | ok s => simp at h
        | error e2 => cases e2 <;> simp_all <;> (subst h; simp)
  · rw [if_pos (by simp [htr])] at h
    simp at h

theorem json_to_stats_absent_logs {obj : JObj} (hne : ¬obj.isEmpty = true)
    (h : (json_to_stats (some obj)).1 = .ok none) :
    (json_to_stats (some obj)).2 ≠ [] := by
  unfold json_to_stats at h ⊢
  simp only [hne, Bool.false_eq_true, if_false] at h ⊢
  generalize hE : (do
    let ts ← pySubscript (.jobj obj) KEY_STATS_TOTAL_SIZE
    let fc ← pySubscript (.jobj obj) KEY_STATS_TOTAL_FILE_COUNT
    mk_ResticStats ts fc ((JObj.find? obj KEY_STATS_TOTAL_BLOB_COUNT).getD .jnull) :
      Except PyExn ResticStats) = E at h ⊢
  cases E with
  | ok s => simp at h
  | error e => cases e <;> simp_all

theorem json_to_backup_status_absent_logs {data : JVal} {key : KeyRef}
    (htr : pyTruthy data = true)
    (h : (json_to_backup_status data key).1 = .ok none) :
    (json_to_backup_status data key).2 ≠ [] := by
  unfold json_to_backup_status at h ⊢
  rw [if_neg (by simp [htr])] at h ⊢
  generalize hE : (do
    let ft ← pySubscript data KEY_STATUS_FILES_TOTAL
    let bt ← pySubscript data KEY_STATUS_BYTES_TOTAL
    let pd ← pyGet data KEY_STATUS_PERCENT_DONE
    let fd ← pyGet data KEY_STATUS_FILES_DONE
    let bd ← pyGet data KEY_STATUS_BYTES_DONE
    let se ← pyGet data KEY_STATUS_SECONDS_ELAPSED
    let sr ← pyGet data KEY_STATUS_SECONDS_REMAINING
    mk_ResticBackupStatus key ft bt pd fd bd se sr :
      Except PyExn ResticBackupStatus) = E at h ⊢
  cases E with
  | ok s => simp at h
  | error e => cases e <;> simp_all

theorem json_to_backup_summary_absent_logs {data : JVal} {key : KeyRef}
    {store : KeyStore} (htr : pyTruthy data = true)
    (h : (json_to_backup_summary data key store).1 = .ok none) :
    (json_to_backup_summary data key store).2.2 ≠ [] := by
  unfold json_to_backup_summary at h ⊢
  rw [if_neg (by simp [htr])] at h ⊢
  cases hsid : pySubscript data KEY_SUMMARY_SNAPSHOT_ID with
  | error e =>
    rw [hsid] at h
    cases e <;> simp_all
  | ok sid =>
    rw [hsid] at h
    simp only at h ⊢
    generalize hE : (do
      let fn ← pySubscript data KEY_SUMMARY_FILES_NEW
      let fc ← pySubscript data KEY_SUMMARY_FILES_CHANGED
      let fu ← pySubscript data KEY_SUMMARY_FILES_UNMODIFIED
      let dn ← pySubscript data KEY_SUMMARY_DIRS_NEW
      let dc ← pySubscript data KEY_SUMMARY_DIRS_CHANGED
      let du ← pySubscript data KEY_SUMMARY_DIRS_UNMODIFIED
      let da ← pySubscript data KEY_SUMMARY_DATA_ADDED
      let fp ← pySubscript data KEY_SUMMARY_TOTAL_FILES_PROCESSED
      let bp ← pySubscript data KEY_SUMMARY_TOTAL_BYTES_PROCESSED
      let dur ← pySubscript data KEY_SUMMARY_TOTAL_DURATION
      mk_ResticBackupSummary key fn fc fu dn dc du da fp bp dur :
        Except PyExn ResticBackupSummary) = E at h ⊢
    cases E with
    | ok s => simp at h
    | error e => cases e <;> simp_all

theorem json_to_snapshot_absent_logs {j : JVal} (htr : pyTruthy j = true)
    (h : (json_to_snapshot j).1 = .ok none) :
    (json_to_snapshot j).2 ≠ [] := by
  unfold json_to_snapshot at h ⊢
  rw [if_neg (by simp [htr])] at h ⊢
  cases ht : pySubscript j KEY_SNAPSHOT_TIME with
  | error e =>
    rw [ht] at h
    cases e <;> simp_all
  | ok tv =>
    rw [ht] at h
    simp only at h ⊢
    cases hd : dateutil_parse tv with
    | error e => rw [hd] at h; simp
    | ok dt =>
      rw [hd] at h
      simp only at h ⊢
      generalize hE : (do
        let hv ← pySubscript j KEY_SNAPSHOT_HOSTNAME
        let pv ← pySubscript j KEY_SNAPSHOT_PATHS
        let tv2 ← pyGet j KEY_SNAPSHOT_TAGS
        let sv ← pySubscript j KEY_SNAPSHOT_SHORT_ID
        let key ← mk_ResticSnapshotKeys hv pv tv2 sv
        pure (ResticSnapshot.mk key dt none) :
          Except PyExn ResticSnapshot) = E at h ⊢
      cases E with
      | ok s => simp at h
      | error e => cases e <;> simp_all

theorem json_to_snapshot_no_warnNoSnapshots (e : JVal) :
    LogEvent.warnNoSnapshots ∉ (json_to_snapshot e).2 := by
  unfold json_to_snapshot
  repeat' split
  all_goals simp

theorem decodeSnapshotEntries_no_raise {es : List JVal}
    (hnr : ∀ e ∈ es, ∀ ex, (json_to_snapshot e).1 ≠ .error ex) :
    ∃ logs, decodeSnapshotEntries es = (.ok (es.map decodedEntry), logs) ∧
      LogEvent.warnNoSnapshots ∉ logs := by
  induction es with
  | nil => exact ⟨[], rfl, by simp⟩
  | cons e rest ih =>
    obtain ⟨logs2, h2, hw2⟩ := ih (fun x hx => hnr x (List.mem_cons_of_mem e hx))
    cases hje : json_to_snapshot e with
    | mk r logs_e =>
      cases r with
      | error ex =>
        exact absurd (by rw [hje]) (hnr e (List.mem_cons_self e rest) ex)
      | ok o =>
        refine ⟨logs_e ++ logs2, ?_, ?_⟩
        · unfold decodeSnapshotEntries
          rw [hje, h2]
          have : decodedEntry e = o := by unfold decodedEntry; rw [hje]
          simp [this]
        · intro hmem
          rcases List.mem_append.mp hmem with hm | hm
          · exact json_to_snapshot_no_warnNoSnapshots e (by rw [hje]; exact hm)
          · exact hw2 hm

theorem decodeSnapshotGroups_no_raise {groups : List JVal} {es : List JVal}
    (hes : entriesOfGroups groups = .ok es)
    (hnr : ∀ e ∈ es, ∀ ex, (json_to_snapshot e).1 ≠ .error ex) :
    ∃ logs, decodeSnapshotGroups groups = (.ok (es.map decodedEntry), logs) ∧
      LogEvent.warnNoSnapshots ∉ logs := by
  induction groups generalizing es with
  | nil =>
    unfold entriesOfGroups at hes
    simp only [pure, Except.pure, Except.ok.injEq] at hes
    subst hes
    exact ⟨[], rfl, by simp⟩
  | cons g rest ih =>
    unfold entriesOfGroups at hes
    obtain ⟨sv, hsv, hes⟩ := exbind_ok hes
    obtain ⟨es_g, hesg, hes⟩ := exbind_ok hes
    obtain ⟨es_r, hesr, hes⟩ := exbind_ok hes
    simp only [pure, Except.pure, Except.ok.injEq] at hes
    subst hes
    obtain ⟨logsA, hA, hwA⟩ := decodeSnapshotEntries_no_raise
      (fun e he ex => hnr e (List.mem_append.mpr (Or.inl he)) ex)
    obtain ⟨logsB, hB, hwB⟩ := ih hesr
      (fun e he ex => hnr e (List.mem_append.mpr (Or.inr he)) ex)
    refine ⟨logsA ++ logsB, ?_, ?_⟩
    · unfold decodeSnapshotGroups
      simp only [hsv, hesg, hA, hB]
      simp
    · intro hmem
      rcases List.mem_append.mp hmem with hm | hm
      · exact hwA hm
      · exact hwB hm

theorem get_snapshots_decodes_each {result : Option JVal} {es : List JVal}
    (hes : listingEntries result = .ok es)
    (hnr : ∀ e ∈ es, ∀ ex, (json_to_snapshot e).1 ≠ .error ex) :
    ∃ logs, get_snapshots result = (.ok (es.map decodedEntry), logs) ∧
      (LogEvent.warnNoSnapshots ∈ logs ↔ es = []) := by
  unfold listingEntries at hes
  cases hit : pyIterOrEmpty ((result).getD (.jarr [])) with
  | error e => rw [hit] at hes; simp at hes
  | ok groups =>
    rw [hit] at hes
    simp only at hes
    obtain ⟨logs, hg, hw⟩ := decodeSnapshotGroups_no_raise hes hnr
    refine ⟨logs ++ (if (es.map decodedEntry).isEmpty then
      [LogEvent.warnNoSnapshots] else []), ?_, ?_⟩
    · unfold get_snapshots
      simp only [hit, hg]
    · constructor
      · intro hmem
        rcases List.mem_append.mp hmem with hm | hm
        · exact absurd hm hw
        · by_cases he : (es.map decodedEntry).isEmpty
          · simpa using List.isEmpty_iff.mp he
          · simp [he] at hm
      · intro he
        subst he
        simp

/-! ## The claims -/

/-- C1: for every streaming line whose JSON has message_type "summary"
and whose summary decode succeeds, `get_piped_stats` returns exactly two
records in order: first a synthesized terminal `ResticBackupStatus` with
`percent_done = 1.0`, `files_total`/`files_done` equal to the summary's
total files processed, `bytes_total`/`bytes_done` equal to the summary's
total bytes processed, and `seconds_elapsed` equal to the summary's
duration truncated to an integer; second the decoded
`ResticBackupSummary` itself. -/
theorem c1_summary_yields_terminal_status_then_summary
    {data : JVal} {key : KeyRef} {w : Int} {last : Option Int} {now : Int}
    {store store2 : KeyStore} {s : ResticBackupSummary} {logs : List LogEvent}
    (hmt : pySubscript data KEY_MESSAGE_TYPE =
      .ok (.jstr KEY_MESSAGE_TYPE_SUMMARY))
    (hdec : json_to_backup_summary data key store =
      (.ok (some s), store2, logs)) :
    ∃ st : ResticBackupStatus,
      get_piped_stats (some data) key w last now store =
        (.ok (some [.statusRec st, .summaryRec s]), store2, last, logs) ∧
      st.percent_done = some ⟨1, 0⟩ ∧
      st.files_total = s.files_processed ∧
      st.files_done = some s.files_processed ∧
      st.bytes_total = s.bytes_processed ∧
      st.bytes_done = some s.bytes_processed ∧
      st.seconds_elapsed = some (pyTrunc s.duration) :=
  ⟨_, piped_summary_emits hmt hdec, rfl, rfl, rfl, rfl, rfl, rfl⟩

/-- Witness for C1 at the repository's own summary fixture. -/
theorem c1_witness :
    ∃ st : ResticBackupStatus,
      get_piped_stats (some backup_summary_json) 0 10 none 5 store0 =
        (.ok (some [.statusRec st, .summaryRec decoded_summary]),
          store_after_summary, none, []) ∧
      st.percent_done = some ⟨1, 0⟩ ∧
      st.files_total = decoded_summary.files_processed ∧
      st.files_done = some decoded_summary.files_processed ∧
      st.bytes_total = decoded_summary.bytes_processed ∧
      st.bytes_done = some decoded_summary.bytes_processed ∧
      st.seconds_elapsed = some (pyTrunc decoded_summary.duration) :=
  c1_summary_yields_terminal_status_then_summary (by exact rfl) (by exact rfl)

/-- C2: the rate-limit window of `get_piped_stats` on "status" lines:
a prior emission within a positive window suppresses the line and leaves
the last-emit timestamp unchanged; otherwise a decodable line is emitted
and the timestamp is set to now; `window_seconds = 0` disables
suppression entirely. -/
theorem c2_rate_limit_window
    (data : JVal) (key : KeyRef) (w : Int) (last : Option Int) (now : Int)
    (store : KeyStore)
    (hmt : pySubscript data KEY_MESSAGE_TYPE =
      .ok (.jstr KEY_MESSAGE_TYPE_STATUS)) :
    (∀ t, last = some t → 0 < w → now < t + w →
      get_piped_stats (some data) key w last now store =
        (.ok (some []), store, last, [])) ∧
    (rateSuppress w last now = false →
      ∀ st logs, json_to_backup_status data key = (.ok (some st), logs) →
      get_piped_stats (some data) key w last now store =
        (.ok (some [.statusRec st]), store, some now, logs)) ∧
    (w = 0 → rateSuppress w last now = false) := by
  refine ⟨?_, ?_, ?_⟩
  · intro t hl hw hlt
    subst hl
    exact piped_status_suppressed hmt (by simp [rateSuppress]; exact ⟨hw, hlt⟩)
  · intro hsup st logs hdec
    exact piped_status_emit_some hmt hsup hdec
  · intro hw0
    subst hw0
    cases last <;> simp [rateSuppress]

/-- Witness for C2: with window 10 and the clock fixed at 0, two
consecutive status lines yield one emitted record then one suppressed
empty result; at time 60 the same line is emitted again. -/
theorem c2_witness :
    (get_piped_stats (some backup_status_json) 0 10 none 0 store0 =
      (.ok (some [.statusRec decoded_status]), store0, some 0, [])) ∧
    (get_piped_stats (some backup_status_json) 0 10 (some 0) 0 store0 =
      (.ok (some []), store0, some 0, [])) ∧
    (get_piped_stats (some backup_status_json) 0 10 (some 0) 60 store0 =
      (.ok (some [.statusRec decoded_status]), store0, some 60, [])) := by
  refine ⟨?_, ?_, ?_⟩
  · exact (c2_rate_limit_window backup_status_json 0 10 none 0 store0
      (by exact rfl)).2.1 (by exact rfl) decoded_status [] (by exact rfl)
  · exact (c2_rate_limit_window backup_status_json 0 10 (some 0) 0 store0
      (by exact rfl)).1 0 rfl (by decide) (by decide)
  · exact (c2_rate_limit_window backup_status_json 0 10 (some 0) 60 store0
      (by exact rfl)).2.1 (by exact rfl) decoded_status [] (by exact rfl)

/-- C3 counterexample: `json_to_snapshot` on a listing entry with an
empty hostname RAISES a `ValueError` to its caller rather than returning
absence — the `except` clauses of the snapshot decoder cover only
`KeyError` (and, for the time parse, `TypeError`/`ParserError`), so the
key validators' exceptions escape. -/
theorem c3_counterexample :
    json_to_snapshot snapshot_json_empty_hostname =
      (.error (.valueError "Expected non-empty string"), []) ∧
    (json_to_snapshot snapshot_json_empty_hostname).1 ≠ .ok none := by
  refine ⟨rfl, ?_⟩
  intro h
  rw [show (json_to_snapshot snapshot_json_empty_hostname).1 =
    .error (.valueError "Expected non-empty string") from rfl] at h
  simp at h

/-- C3 amended: the decoders recover missing keys (`KeyError`) and
`ValueError`-class invalid values by returning absence, and every
absence on a truthy input is logged; but `decode_snapshot` recovers only
missing keys and unparsable times — its field-validation failures (for
example the empty hostname) propagate, as do `TypeError`-class coercion
failures in every decoder. -/
theorem c3_amended_decoder_error_recovery :
    (∀ (obj : Option JObj) (e : PyExn) (m : String),
      (json_to_stats obj).1 = .error e →
      e ≠ .keyError m ∧ e ≠ .valueError m) ∧
    (∀ (data : JVal) (key : KeyRef) (e : PyExn) (m : String),
      (json_to_backup_status data key).1 = .error e →
      e ≠ .keyError m ∧ e ≠ .valueError m) ∧
    (∀ (data : JVal) (key : KeyRef) (store : KeyStore) (e : PyExn)
      (m : String),
      (json_to_backup_summary data key store).1 = .error e →
      e ≠ .keyError m ∧ e ≠ .valueError m) ∧
    (∀ (j : JVal) (e : PyExn) (m : String),
      (json_to_snapshot j).1 = .error e → e ≠ .keyError m) ∧
    (∀ obj : JObj, ¬obj.isEmpty = true →
      (json_to_stats (some obj)).1 = .ok none →
      (json_to_stats (some obj)).2 ≠ []) ∧
    (∀ (data : JVal) (key : KeyRef), pyTruthy data = true →
      (json_to_backup_status data key).1 = .ok none →
      (json_to_backup_status data key).2 ≠ []) ∧
    (∀ (data : JVal) (key : KeyRef) (store : KeyStore),
      pyTruthy data = true →
      (json_to_backup_summary data key store).1 = .ok none →
      (json_to_backup_summary data key store).2.2 ≠ []) ∧
    (∀ j : JVal, pyTruthy j = true → (json_to_snapshot j).1 = .ok none →
      (json_to_snapshot j).2 ≠ []) ∧
    json_to_snapshot snapshot_json_empty_hostname =
      (.error (.valueError "Expected non-empty string"), []) :=
  ⟨fun _ _ m h => json_to_stats_uncaught h m,
   fun _ _ _ m h => json_to_backup_status_uncaught h m,
   fun _ _ _ _ m h => json_to_backup_summary_uncaught h m,
   fun _ _ m h => json_to_snapshot_uncaught h m,
   fun _ hne h => json_to_stats_absent_logs hne h,
   fun _ _ htr h => json_to_backup_status_absent_logs htr h,
   fun _ _ _ htr h => json_to_backup_summary_absent_logs htr h,
   fun _ htr h => json_to_snapshot_absent_logs htr h,
   rfl⟩

/-- Witness for C3 (amended), applied at concrete inputs: a stats object
with a bad numeric string is recovered with a log, and the exception the
empty-hostname snapshot raises is not a recovered class. -/
theorem c3_amended_witness :
    (json_to_stats (some [("total_size", .jstr "garbage"),
      ("total_file_count", .jint 1)])).2 ≠ [] ∧
    ∀ m, (PyExn.valueError "Expected non-empty string") ≠ .keyError m := by
  obtain ⟨h1, h2, h3, h4, h5, h6, h7, h8, h9⟩ :=
    c3_amended_decoder_error_recovery
  exact ⟨h5 _ (by decide) (by exact rfl),
    fun m => h4 snapshot_json_empty_hostname _ m (by rw [h9])⟩

/-- C4 counterexample: a summary line missing `files_new` yields an
empty result, but the shared key IS mutated: its `snapshot_id` is
overwritten with the payload's snapshot id before the missing-key
failure is hit. -/
theorem c4_counterexample :
    get_piped_stats (some backup_summary_json_missing_files_new) 0 10 none 0
      store0 =
      (.ok (some []), store_after_summary, none,
        [.warnSummaryMissingKey "files_new"]) ∧
    store_after_summary ≠ store0 := by
  refine ⟨rfl, ?_⟩
  intro h
  have h2 := congrArg (fun st : KeyStore => st.map fun k => k.snapshot_id) h
  simp [store_after_summary, store0, pipe_key] at h2

/-- C4 amended: a summary line whose decode fails yields an empty result
and leaves the rate-limit timestamp unchanged, but the caller's
`SnapshotKey` is still mutated whenever the payload carries a
`snapshot_id` field (the in-place write precedes the failing field
lookup); the shared state is untouched only when `snapshot_id` itself is
missing. -/
theorem c4_amended_failed_summary_mutates_key
    {data : JVal} {key : KeyRef} {w : Int} {last : Option Int} {now : Int}
    {store store2 : KeyStore} {logs : List LogEvent}
    (hmt : pySubscript data KEY_MESSAGE_TYPE =
      .ok (.jstr KEY_MESSAGE_TYPE_SUMMARY))
    (hdec : json_to_backup_summary data key store = (.ok none, store2, logs)) :
    get_piped_stats (some data) key w last now store =
      (.ok (some []), store2, last, logs) ∧
    (∀ sid, pySubscript data KEY_SUMMARY_SNAPSHOT_ID = .ok sid →
      store2 = KeyStore.setSnapshotId store key sid) ∧
    ((∀ sid, pySubscript data KEY_SUMMARY_SNAPSHOT_ID ≠ .ok sid) →
      store2 = store) :=
  ⟨piped_summary_absent hmt hdec,
    (json_to_backup_summary_none_inv hdec).1,
    (json_to_backup_summary_none_inv hdec).2⟩

/-- Witness for C4 (amended) at the missing-`files_new` fixture. -/
theorem c4_amended_witness :
    get_piped_stats (some backup_summary_json_missing_files_new) 0 10 none 0
      store0 =
      (.ok (some []), store_after_summary, none,
        [.warnSummaryMissingKey "files_new"]) ∧
    store_after_summary = KeyStore.setSnapshotId store0 0 (.jstr "a34dda71") := by
  obtain ⟨h1, h2, h3⟩ := @c4_amended_failed_summary_mutates_key
    backup_summary_json_missing_files_new 0 10 none 0 store0
    store_after_summary [.warnSummaryMissingKey "files_new"] (by exact rfl)
    (by exact rfl)
  exact ⟨h1, h2 _ (by exact rfl)⟩

/-- C5 counterexample: a non-suppressed status line whose payload fails
validation (percent 2.0) consumes the rate-limit slot, but the returned
list is NOT empty — it holds a single Python `None`. -/
theorem c5_counterexample :
    get_piped_stats (some backup_status_json_bad_percent) 0 10 none 7 store0 =
      (.ok (some [.pyNone]), store0, some 7,
        [.warnStatusInvalidValue "Not a valid percent"]) ∧
    (some [PipedValue.pyNone] : Option (List PipedValue)) ≠ some [] := by
  exact ⟨rfl, by simp⟩

/-- C5 amended: a status line that passes the window check but fails to
decode returns a one-element list holding only Python `None` (no
records), while the last-emit timestamp is still updated to now. -/
theorem c5_amended_failed_status_consumes_slot
    {data : JVal} {key : KeyRef} {w : Int} {last : Option Int} {now : Int}
    {store : KeyStore} {logs : List LogEvent}
    (hmt : pySubscript data KEY_MESSAGE_TYPE =
      .ok (.jstr KEY_MESSAGE_TYPE_STATUS))
    (hsup : rateSuppress w last now = false)
    (hdec : json_to_backup_status data key = (.ok none, logs)) :
    get_piped_stats (some data) key w last now store =
      (.ok (some [.pyNone]), store, some now, logs) :=
  piped_status_emit_none hmt hsup hdec

/-- Witness for C5 (amended) at the bad-percent fixture. -/
theorem c5_amended_witness :
    get_piped_stats (some backup_status_json_bad_percent) 0 10 none 7 store0 =
      (.ok (some [.pyNone]), store0, some 7,
        [.warnStatusInvalidValue "Not a valid percent"]) :=
  c5_amended_failed_status_consumes_slot (by exact rfl) (by exact rfl) (by exact rfl)

/-- C6: a line that is not valid JSON and a JSON object lacking
`message_type` both yield `[]` with no log, as the claim says — but a
recognised-JSON line whose `message_type` is neither "status" nor
"summary" (e.g. "error" or "verbose_status") makes `get_piped_stats`
fall off the end of the function and return Python `None`, not an empty
sequence; the repository's own test asserts `[]` for this case, so the
code contradicts its test. -/
theorem c6_unrecognized_type_returns_python_none :
    (get_piped_stats none 0 10 none 0 store0 =
      (.ok (some []), store0, none, [])) ∧
    (get_piped_stats (some (.jobj [("foo", .jint 1)])) 0 10 none 0 store0 =
      (.ok (some []), store0, none, [])) ∧
    (get_piped_stats (some (.jobj [("message_type", .jstr "error")])) 0 10
      none 0 store0 = (.ok none, store0, none, [])) ∧
    (get_piped_stats (some (.jobj [("message_type", .jstr "verbose_status")]))
      0 10 none 0 store0 = (.ok none, store0, none, [])) ∧
    ((.ok none : Except PyExn (Option (List PipedValue))) ≠ .ok (some [])) :=
  ⟨rfl, rfl, rfl, rfl, by simp⟩

/-- C7 counterexample: on a grouped listing with one good and one
undecodable snapshot entry, `get_snapshots` does NOT skip the failed
entry — `[json_to_snapshot(snapshot)] or []` always appends one element,
so the failed entry contributes a `None` to the returned list. -/
theorem c7_counterexample :
    get_snapshots (some grouped_listing_json) =
      (.ok [some decoded_snapshot, none], [.warnSnapshotMissingKey "time"]) ∧
    [some decoded_snapshot, none] ≠ [some decoded_snapshot] := by
  refine ⟨rfl, ?_⟩
  intro h
  simpa using congrArg List.length h

/-- C7 amended: `get_snapshots` flattens the grouped listing into one
output element PER listed snapshot entry — the decoded record where the
decode succeeds and a `None` placeholder where it returns absence
(raising decodes excepted) — and the "no valid snapshots" warning is
logged exactly when the listing held no entries at all (equivalently,
when the returned list is empty). -/
theorem c7_amended_get_snapshots_entrywise {result : Option JVal}
    {es : List JVal}
    (hes : listingEntries result = .ok es)
    (hnr : ∀ e ∈ es, ∀ ex, (json_to_snapshot e).1 ≠ .error ex) :
    ∃ logs, get_snapshots result = (.ok (es.map decodedEntry), logs) ∧
      (LogEvent.warnNoSnapshots ∈ logs ↔ es = []) :=
  get_snapshots_decodes_each hes hnr

/-- Witness for C7 (amended) at the mixed good/failing listing. -/
theorem c7_amended_witness :
    ∃ logs, get_snapshots (some grouped_listing_json) =
      (.ok ([snapshot_json_valid, snapshot_json_missing_time].map
        decodedEntry), logs) ∧
      (LogEvent.warnNoSnapshots ∈ logs ↔
        [snapshot_json_valid, snapshot_json_missing_time] = ([] : List JVal)) := by
  apply c7_amended_get_snapshots_entrywise
  · exact rfl
  · intro e he ex
    rcases List.mem_cons.mp he with rfl | he2
    · intro hc
      rw [show (json_to_snapshot snapshot_json_valid).1 =
        .ok (some decoded_snapshot) from rfl] at hc
      cases hc
    · rcases List.mem_cons.mp he2 with rfl | he3
      · intro hc
        rw [show (json_to_snapshot snapshot_json_missing_time).1 =
          .ok none from rfl] at hc
        cases hc
      · cases he3

/-- C8: the claim (and the repository's own tests, which construct
`ResticStatsBundle()` with absent sides) say a bundle is constructible
with an absent side; but both bundle fields carry
`attr.validators.instance_of(ResticStats)`, which raises `TypeError` on
`None` — so when a per-snapshot stats call returns absence,
`get_snapshot_stats` raises instead of attaching a partial bundle. -/
theorem c8_bundle_rejects_absent_side :
    mk_ResticStatsBundle none (some ⟨1709, 1, none⟩) =
      .error (.typeError "raw must be a ResticStats instance") ∧
    mk_ResticStatsBundle (some ⟨1709, 1, none⟩) none =
      .error (.typeError "restore must be a ResticStats instance") ∧
    get_snapshot_stats (some grouped_listing_json_valid) stats_fn_absent =
      (.error (.typeError "raw must be a ResticStats instance"), []) :=
  ⟨rfl, rfl, rfl⟩

/-- C9: `get_repo_stats` issues the two repository-wide stats calls —
modes raw-data and restore-size, with no snapshot-id scoping — and
returns a single-element sequence holding one `ResticRepoStats` that
wraps the two results. -/
theorem c9_get_repo_stats_two_unscoped_calls :
    ∀ stats_fn : String → List JVal → Option ResticStats,
      get_repo_stats stats_fn =
        [⟨stats_fn KEY_MODE_RAW_DATA [], stats_fn KEY_MODE_RESTORE_SIZE []⟩] ∧
      (get_repo_stats stats_fn).length = 1 :=
  fun _ => ⟨rfl, rfl⟩

/-- Witness for C9 at the always-absent stats collaborator. -/
theorem c9_witness :
    get_repo_stats stats_fn_absent = [⟨none, none⟩] ∧
    (get_repo_stats stats_fn_absent).length = 1 :=
  c9_get_repo_stats_two_unscoped_calls stats_fn_absent

/-- C10: after a successful summary decode, both returned records hold
the very key object the caller passed in (the same reference), whose
`snapshot_id` now equals the payload's `snapshot_id`; via that shared
reference, any later state of the key is observed identically through
both records. -/
theorem c10_records_share_callers_key
    {data : JVal} {key : KeyRef} {w : Int} {last : Option Int} {now : Int}
    {store store2 : KeyStore} {s : ResticBackupSummary} {logs : List LogEvent}
    {sid : JVal}
    (hmt : pySubscript data KEY_MESSAGE_TYPE =
      .ok (.jstr KEY_MESSAGE_TYPE_SUMMARY))
    (hdec : json_to_backup_summary data key store =
      (.ok (some s), store2, logs))
    (hsid : pySubscript data KEY_SUMMARY_SNAPSHOT_ID = .ok sid)
    (hlen : key < store.length) :
    ∃ (st : ResticBackupStatus) (k : ResticSnapshotKeys),
      get_piped_stats (some data) key w last now store =
        (.ok (some [.statusRec st, .summaryRec s]), store2, last, logs) ∧
      st.key = key ∧ s.key = key ∧
      store2.get? key = some k ∧ k.snapshot_id = sid ∧
      (∀ store3 : KeyStore, store3.get? st.key = store3.get? s.key) := by
  obtain ⟨hkey, h1, h2, h3, hlogs, sid2, hsid2, hst2⟩ :=
    json_to_backup_summary_some_inv hdec
  have hsideq : sid2 = sid := by
    rw [hsid] at hsid2
    exact (Except.ok.inj hsid2).symm
  subst hsideq
  obtain ⟨k0, hk0, hk1⟩ := @KeyStore.get_setSnapshotId store key sid2 hlen
  refine ⟨⟨s.key, s.files_processed, s.bytes_processed, some ⟨1, 0⟩,
    some s.files_processed, some s.bytes_processed,
    some (pyTrunc s.duration), none⟩, { k0 with snapshot_id := sid2 },
    piped_summary_emits hmt hdec, hkey, hkey, ?_, rfl, fun _ => rfl⟩
  rw [hst2]
  exact hk1

/-- Witness for C10 at the repository's summary fixture. -/
theorem c10_witness :
    ∃ (st : ResticBackupStatus) (k : ResticSnapshotKeys),
      get_piped_stats (some backup_summary_json) 0 10 none 5 store0 =
        (.ok (some [.statusRec st, .summaryRec decoded_summary]),
          store_after_summary, none, []) ∧
      st.key = 0 ∧ decoded_summary.key = 0 ∧
      store_after_summary.get? 0 = some k ∧
      k.snapshot_id = .jstr "a34dda71" ∧
      (∀ store3 : KeyStore,
        store3.get? st.key = store3.get? decoded_summary.key) :=
  c10_records_share_callers_key (by exact rfl) (by exact rfl) (by exact rfl)
    (by decide)
